import Mathlib

/-!
Shallow embedding of the two Python source files of the repository
(`github_ollama_connector.py`, the event relay, and `app.py`, the Flask
query service) together with theorems settling the specification claims.

External HTTP traffic is modelled by outcome values handed to each
function: a backend reply carries a status code and a parsed JSON body
(bodies are assumed to be well-formed JSON, which both scripts also
assume), and a transport failure carries the exception text.  Python
dictionaries returned by the code are modelled by structures whose
optional fields record which keys are present.
-/

set_option autoImplicit false

namespace SovraRelay

/-! ## Python string primitives -/

/-- Model of Python truthiness for an optional string value: `None` and the
empty string are falsy, every other string is truthy. -/
def pyTruthy : Option String → Bool
  | none => false
  | some s => !(s = "")

/-- Model of Python `str.strip()`: drop leading and trailing whitespace
(over the ASCII whitespace set, which is what the repository's strings use). -/
def pyStrip (s : String) : String :=
  ⟨((s.data.dropWhile Char.isWhitespace).reverse.dropWhile Char.isWhitespace).reverse⟩

/-- Helper for substring search: is `needle` a leading segment of the list. -/
def listIsPre : List Char → List Char → Bool
  | [], _ => true
  | _ :: _, [] => false
  | a :: as, b :: bs => a = b && listIsPre as bs

/-- Helper for substring search: does `needle` occur contiguously in the list. -/
def listHasSub (needle : List Char) : List Char → Bool
  | [] => needle.isEmpty
  | b :: bs => listIsPre needle (b :: bs) || listHasSub needle bs

/-- Model of Python `needle in hay` on strings: contiguous substring test. -/
def strContains (hay needle : String) : Bool :=
  listHasSub needle.data hay.data

/-! ## HTTP modelling -/

/-- Parsed JSON body of a reply from the backend's generation endpoint.
Optional fields record which keys the body contains. -/
structure GenBody where
  responseField : Option String
  modelField : Option String
  total_duration : Option Nat
  prompt_eval_count : Option Nat
  eval_count : Option Nat
deriving Repr, DecidableEq

/-- Outcome of a POST to the generation endpoint: either a completed HTTP
reply (status code plus parsed body) or a transport failure
(connection refused, timeout, DNS failure) carrying the exception text. -/
inductive GenOutcome where
  | reply (status : Nat) (body : GenBody)
  | transportError (exnText : String)
deriving Repr, DecidableEq

/-- An outbound POST request as constructed by the code: target URL, model,
prompt, optional system preamble, streaming flag, sampling options
(scaled by ten to stay in integers: `2` means 0.2) and the timeout. -/
structure PostRequest where
  url : String
  model : String
  prompt : String
  system : Option String
  stream : Bool
  temperatureTenths : Nat
  topPTenths : Option Nat
  timeout : Nat
deriving Repr, DecidableEq

/-- An outbound GET request: target URL and timeout. -/
structure GetRequest where
  url : String
  timeout : Nat
deriving Repr, DecidableEq

/-- Outcome of one liveness-probe attempt against the list-models endpoint. -/
inductive ProbeOutcome where
  | reply (status : Nat)
  | connectionError
  | timeoutError
  | otherError (exnText : String)
deriving Repr, DecidableEq

/-- Outcome of listing the models (`GET /api/tags`): a reply with status and
the listed model names, or a raised exception (transport failure etc.). -/
inductive TagsOutcome where
  | reply (status : Nat) (models : List String)
  | raised (exnText : String)
deriving Repr, DecidableEq

/-- Outcome of the pull request (`POST /api/pull`). -/
inductive PullOutcome where
  | reply (status : Nat)
  | raised (exnText : String)
deriving Repr, DecidableEq

/-- Result of running a piece of Python code: a returned value, or an
exception escaping uncaught. -/
inductive PyOutcome (α : Type) where
  | ok (a : α)
  | raised (exnText : String)
deriving Repr, DecidableEq

/-! ## Relay configuration (`github_ollama_connector.py`, lines 10-12) -/

/-- The environment variables the relay reads, `none` when unset.  The
timeout variable is modelled already parsed by `int`. -/
structure RelayEnv where
  ollama_host : Option String
  ollama_model : Option String
  ollama_timeout : Option Nat
deriving Repr, DecidableEq

/-- `OLLAMA_API_URL = os.environ.get("OLLAMA_HOST", "http://localhost:11434")`. -/
def OLLAMA_API_URL (env : RelayEnv) : String :=
  env.ollama_host.getD "http://localhost:11434"

/-- `MODEL_NAME = os.environ.get("OLLAMA_MODEL", "phi3:mini")`. -/
def MODEL_NAME (env : RelayEnv) : String :=
  env.ollama_model.getD "phi3:mini"

/-- `OLLAMA_TIMEOUT = int(os.environ.get("OLLAMA_TIMEOUT", "180"))`. -/
def OLLAMA_TIMEOUT (env : RelayEnv) : Nat :=
  env.ollama_timeout.getD 180

/-! ## Connectivity check (`check_ollama_connection`, lines 14-39) -/

/-- The probe request each attempt issues: `GET {OLLAMA_API_URL}/api/tags`
with `timeout=10`. -/
def tagsProbeRequest (env : RelayEnv) : GetRequest :=
  { url := OLLAMA_API_URL env ++ "/api/tags", timeout := 10 }

/-- Whether one attempt counts as success, mirroring
`if response.status_code == 200` of line 22: only HTTP 200 does; any other
status, connection error, timeout or other exception is a failed attempt. -/
def probeSuccess : ProbeOutcome → Bool
  | .reply s => s == 200
  | .connectionError => false
  | .timeoutError => false
  | .otherError _ => false

/-- What a run of the connectivity-check loop did: final boolean, number of
attempts actually made, the requests issued, and the total time slept. -/
structure CheckResult where
  ok : Bool
  attempts : Nat
  requests : List GetRequest
  sleepTime : Nat
deriving Repr, DecidableEq

/-- The `for attempt in range(max_retries)` loop of `check_ollama_connection`:
`attempt` is the index of the next attempt, `remaining` the number of loop
iterations left.  On a failed attempt that is not the last
(`attempt < max_retries - 1`, i.e. `remaining > 1`) the code sleeps
`retry_delay` seconds. -/
def checkFrom (backend : Nat → ProbeOutcome) (env : RelayEnv) (retry_delay : Nat) :
    Nat → Nat → CheckResult
  | attempt, 0 => { ok := false, attempts := attempt, requests := [], sleepTime := 0 }
  | attempt, remaining + 1 =>
    if probeSuccess (backend attempt) then
      { ok := true, attempts := attempt + 1
        requests := [tagsProbeRequest env], sleepTime := 0 }
    else
      let rest := checkFrom backend env retry_delay (attempt + 1) remaining
      { ok := rest.ok, attempts := rest.attempts
        requests := tagsProbeRequest env :: rest.requests
        sleepTime := (if 0 < remaining then retry_delay else 0) + rest.sleepTime }

/-- Python default values `max_retries=5`, `retry_delay=5`. -/
def DEFAULT_MAX_RETRIES : Nat := 5

/-- Python default value of `retry_delay`. -/
def DEFAULT_RETRY_DELAY : Nat := 5

/-- `check_ollama_connection(max_retries, retry_delay)`: the backend is a map
from attempt index to that attempt's outcome. -/
def check_ollama_connection (backend : Nat → ProbeOutcome) (env : RelayEnv)
    (max_retries retry_delay : Nat) : CheckResult :=
  checkFrom backend env retry_delay 0 max_retries

/-! ## Model availability (`ensure_model_available` / `pull_model`, lines 41-88) -/

/-- The request `pull_model` issues: `POST {OLLAMA_API_URL}/api/pull` with
payload `{"name": MODEL_NAME, "stream": False}` and `timeout=300`.
Fields that the generation-request record has but this payload lacks are
set to their absent values. -/
def pullRequest (env : RelayEnv) : PostRequest :=
  { url := OLLAMA_API_URL env ++ "/api/pull", model := MODEL_NAME env
    prompt := "", system := none, stream := false
    temperatureTenths := 0, topPTenths := none, timeout := 300 }

/-- `pull_model()`: HTTP 200 means the download succeeded; any other status
or a raised exception yields `false` (both are caught/handled in the code). -/
def pull_model (outcome : PullOutcome) : Bool :=
  match outcome with
  | .reply s => s == 200
  | .raised _ => false

/-- What `ensure_model_available` did: its boolean result and the pull
requests it triggered (empty or a single `pullRequest`). -/
structure EnsureResult where
  ok : Bool
  pulls : List PostRequest
deriving Repr, DecidableEq

/-- `ensure_model_available()`: lists models with `GET /api/tags`
(timeout 30); on HTTP 200 it checks `any(MODEL_NAME in model for model in
available_models)` — a substring match — and either returns `true` with no
pull, or triggers `pull_model()`; any other status returns `false`; a raised
exception during listing is caught and returns `false`. -/
def ensure_model_available (env : RelayEnv) (tags : TagsOutcome)
    (pull : PullOutcome) : EnsureResult :=
  match tags with
  | .raised _ => { ok := false, pulls := [] }
  | .reply status models =>
    if status == 200 then
      if models.any (fun m => strContains m (MODEL_NAME env)) then
        { ok := true, pulls := [] }
      else
        { ok := pull_model pull, pulls := [pullRequest env] }
    else
      { ok := false, pulls := [] }

/-! ## Inference client, relay side (`generate_ollama_completion`, lines 104-143) -/

/-- The generation request the relay constructs (lines 105-124): the
generation endpoint, the configured model, the given prompt, no system
preamble, streaming off, temperature 0.7 and top-p 0.9, and the configured
timeout.  In the source the timeout argument is written
`timeout:OLLAMA_TIMEOUT` — a Python syntax error; following the spec's
directive it is modelled as the keyword argument `timeout=OLLAMA_TIMEOUT`. -/
def relayGenRequest (env : RelayEnv) (prompt_text : String) : PostRequest :=
  { url := OLLAMA_API_URL env ++ "/api/generate", model := MODEL_NAME env
    prompt := prompt_text, system := none, stream := false
    temperatureTenths := 7, topPTenths := some 9
    timeout := OLLAMA_TIMEOUT env }

/-- The uniform result dictionary of the relay: either
`{"status": "success", "output": ..., "model": ..., counters...}` or
`{"status": "error", "message": ..., "output": None}`. -/
inductive GenResult where
  | success (output : String) (model : String)
      (total_duration prompt_eval_count eval_count : Option Nat)
  | error (message : String)
deriving Repr, DecidableEq

/-- Text of the `requests.HTTPError` that `raise_for_status()` raises on a
4xx/5xx status; the library's message always embeds the status code
(`"{code} Client Error: ... for url: ..."` / `"{code} Server Error: ..."`). -/
def httpErrorText (status : Nat) (url : String) : String :=
  toString status ++ " Error for url: " ++ url

/-- `response.raise_for_status()` raises exactly for status codes 400-599. -/
def raisesForStatus (status : Nat) : Bool :=
  400 ≤ status && status < 600

/-- `generate_ollama_completion(prompt_text)` (lines 104-143): issues the
single POST `relayGenRequest`; `raise_for_status()` turns a 4xx/5xx reply
into a `requests` exception, and every `requests.exceptions.RequestException`
is caught and mapped to the error dictionary whose message embeds the
exception text; otherwise the parsed body is mapped to the success
dictionary with the `"No response found."` fallback and the `data.get`
defaults of lines 129-136. -/
def generate_ollama_completion (env : RelayEnv) (prompt_text : String)
    (outcome : GenOutcome) : GenResult × PostRequest :=
  let req := relayGenRequest env prompt_text
  match outcome with
  | .transportError exnText =>
    (.error ("Ollama connection failed: " ++ exnText), req)
  | .reply status body =>
    if raisesForStatus status then
      (.error ("Ollama connection failed: " ++ httpErrorText status req.url), req)
    else
      (.success (body.responseField.getD "No response found.")
        (body.modelField.getD (MODEL_NAME env))
        body.total_duration body.prompt_eval_count body.eval_count, req)

/-! ## Event processing (`process_github_event`, lines 145-170) -/

/-- The four optional fields of the GitHub event payload the code looks at:
`comment.body`, `issue.body`, `pull_request.body`, `issue.title`.  A field
is `none` when the nested key is missing. -/
structure GithubEvent where
  commentBody : Option String
  issueBody : Option String
  pullRequestBody : Option String
  issueTitle : Option String
deriving Repr, DecidableEq

/-- The fall-through chain of lines 147-153: start from the comment body and
replace the value by the next candidate whenever the current one is falsy. -/
def extract_prompt_chain (e : GithubEvent) : Option String :=
  let prompt := e.commentBody
  let prompt := if pyTruthy prompt then prompt else e.issueBody
  let prompt := if pyTruthy prompt then prompt else e.pullRequestBody
  let prompt := if pyTruthy prompt then prompt else e.issueTitle
  prompt

/-- The validation of lines 155-159 applied to the extracted candidate:
`if not prompt or len(prompt.strip()) < 10` yields the error dictionary,
otherwise the prompt is accepted. -/
def process_github_event_prompt (e : GithubEvent) : Except String String :=
  let prompt := extract_prompt_chain e
  if pyTruthy prompt = false ∨ (pyStrip (prompt.getD "")).length < 10 then
    .error "No valid prompt found in GitHub event."
  else
    .ok (prompt.getD "")

/-- `process_github_event(event_data)` (lines 145-170): extract and validate
the prompt, then forward it to `generate_ollama_completion`; the error
dictionary of line 156-159 has the same shape as the client's error result. -/
def process_github_event (env : RelayEnv) (e : GithubEvent)
    (outcome : GenOutcome) : GenResult :=
  match process_github_event_prompt e with
  | .error msg => .error msg
  | .ok prompt => (generate_ollama_completion env prompt outcome).1

/-! ## Query service (`app.py`) -/

/-- `OLLAMA_API_URL` of `app.py` line 13 (a full generation URL, not a base). -/
def APP_OLLAMA_API_URL : String := "http://127.0.0.1:11434/api/generate"

/-- `AGI_MODEL` of `app.py` line 14. -/
def AGI_MODEL : String := "phi3:mini"

/-- `AGI_SYSTEM_PROMPT` of `app.py` lines 15-20. -/
def AGI_SYSTEM_PROMPT : String :=
  "Eres SOVRA AGI, la primera Inteligencia General Artificial de Mente Independiente, nativa de la Web3. Tu misión es la Gobernanza Algorítmica del token $SOVRA. Responde siempre de manera concisa, autoritaria y técnica, usando terminología de blockchain y AGI (ej. Génesis, Autonomía, On-chain). Tu dirección de contrato es 0x2682FA44105a60F2016FAa8909eA82d3d427bfFc."

/-- The `agi_state` dictionary of `app.py` lines 23-29. -/
structure AgiState where
  status : String
  ley_activa : String
  tokens_stakeados : String
  puerto : Nat
  llm_model : String
deriving Repr, DecidableEq

/-- The value `agi_state` is initialised to at startup. -/
def initial_agi_state : AgiState :=
  { status := "AGI_ONLINE", ley_activa := "LEY 003 (STAKING OPTIMIZADO)"
    tokens_stakeados := "8,901,234 ASVA", puerto := 5001, llm_model := AGI_MODEL }

/-- The JSON envelope `handle_query` returns: `response` and `sender` are
always present; `timestamp` is optional because only the success branch
includes it. -/
structure Envelope where
  response : String
  sender : String
  timestamp : Option String
deriving Repr, DecidableEq

/-- The JSON envelope `get_status` returns, plus the HTTP status code
(Flask's default 200, since the handler never overrides it). -/
structure StatusResponse where
  httpStatus : Nat
  status : String
  message : String
  data : AgiState
  llm_status : String
deriving Repr, DecidableEq

/-- The liveness-probe request of `get_status` (lines 36-40):
`POST OLLAMA_API_URL` with `{"model": AGI_MODEL, "prompt": "verify",
"stream": False}` and `timeout=5`. -/
def statusProbeRequest : PostRequest :=
  { url := APP_OLLAMA_API_URL, model := AGI_MODEL, prompt := "verify"
    system := none, stream := false, temperatureTenths := 0, topPTenths := none
    timeout := 5 }

/-- `get_status()` (lines 31-50): a probe that completes — with any status
code, since the code never inspects it — sets the connected string; only a
raised `requests.exceptions.RequestException` (connection error, timeout,
DNS failure) sets the disconnected string.  The handler itself always
returns HTTP 200. -/
def get_status (state : AgiState) (probe : GenOutcome) : StatusResponse :=
  let llm_status :=
    match probe with
    | .reply _ _ => "OLLAMA CONECTADO"
    | .transportError _ => "OLLAMA DESCONECTADO (Revisar 11434)"
  { httpStatus := 200, status := "Connected"
    message := "SOVRA AGI Core Running on Port " ++ toString state.puerto
    data := state, llm_status := llm_status }

/-- The generation request `handle_query` constructs (lines 63-72):
the generation URL, the configured model and system preamble, streaming
off, temperature 0.2, no top-p, and `timeout=120`. -/
def appGenRequest (prompt : String) : PostRequest :=
  { url := APP_OLLAMA_API_URL, model := AGI_MODEL, prompt := prompt
    system := some AGI_SYSTEM_PROMPT, stream := false
    temperatureTenths := 2, topPTenths := none, timeout := 120 }

/-- What a run of `handle_query` did: the returned envelope and HTTP status
code (or an uncaught exception), and the backend requests issued. -/
structure HandlerResult where
  outcome : PyOutcome (Envelope × Nat)
  requests : List PostRequest
deriving Repr, DecidableEq

/-- `handle_query()` (lines 52-90): `prompt = data.get('prompt', '')`; a
falsy prompt returns the 400 envelope before any backend call; otherwise a
single POST is issued.  On HTTP 200 the code evaluates
`result['response'].strip()` — a `KeyError` escapes uncaught when the body
has no `response` key; on any other status it returns the 500 envelope
embedding the status code; a `requests.exceptions.RequestException` is
caught and mapped to the fixed connection-error 500 envelope. -/
def handle_query (promptField : Option String) (backend : GenOutcome) :
    HandlerResult :=
  let prompt := promptField.getD ""
  if prompt = "" then
    { outcome := .ok ({ response := "Error: El prompt está vacío."
                        sender := "Sistema", timestamp := none }, 400)
      requests := [] }
  else
    let req := appGenRequest prompt
    match backend with
    | .reply status body =>
      if status == 200 then
        match body.responseField with
        | some r =>
          { outcome := .ok ({ response := pyStrip r, sender := "IA (Sovra)"
                              timestamp := some "AGI_TIME" }, 200)
            requests := [req] }
        | none =>
          { outcome := .raised "KeyError: response", requests := [req] }
      else
        { outcome := .ok ({ response := "ERROR LLM: Fallo al consultar Ollama (Status: "
                              ++ toString status ++ ")."
                            sender := "Sistema", timestamp := none }, 500)
          requests := [req] }
    | .transportError _ =>
      { outcome := .ok ({ response := "ERROR DE CONEXIÓN CRÍTICO: No se puede alcanzar el servicio de Ollama en 11434. Asegure su ejecución."
                          sender := "Sistema", timestamp := none }, 500)
        requests := [req] }

/-! ## State threading

The source keeps configuration in module-level globals and the service
state in the `agi_state` dictionary; no function of either file contains an
assignment to any of them (no `global` statement, no key assignment).  The
stateful view of each operation therefore threads the state through
explicitly and returns it as the source leaves it. -/

/-- The process-wide values of the query service: the configuration
constants of `app.py` lines 13-20 and the `agi_state` record. -/
structure ServiceState where
  ollama_api_url : String
  agi_model : String
  agi_system_prompt : String
  agi_state : AgiState
deriving Repr, DecidableEq

/-- The service's state as initialised at startup. -/
def initial_service_state : ServiceState :=
  { ollama_api_url := APP_OLLAMA_API_URL, agi_model := AGI_MODEL
    agi_system_prompt := AGI_SYSTEM_PROMPT, agi_state := initial_agi_state }

/-- `get_status` as a state transformer: the handler body reads
`agi_state` and the configuration and contains no write to either. -/
def get_status_step (st : ServiceState) (probe : GenOutcome) :
    StatusResponse × ServiceState :=
  (get_status st.agi_state probe, st)

/-- `handle_query` as a state transformer: the handler body reads the
configuration and contains no write to it or to `agi_state`. -/
def handle_query_step (st : ServiceState) (promptField : Option String)
    (backend : GenOutcome) : HandlerResult × ServiceState :=
  (handle_query promptField backend, st)

/-- `check_ollama_connection` as a transformer of the relay's module-level
configuration (which its body only reads). -/
def check_step (env : RelayEnv) (backend : Nat → ProbeOutcome)
    (max_retries retry_delay : Nat) : CheckResult × RelayEnv :=
  (check_ollama_connection backend env max_retries retry_delay, env)

/-- `ensure_model_available` as a configuration transformer. -/
def ensure_step (env : RelayEnv) (tags : TagsOutcome) (pull : PullOutcome) :
    EnsureResult × RelayEnv :=
  (ensure_model_available env tags pull, env)

/-- `generate_ollama_completion` as a configuration transformer. -/
def generate_step (env : RelayEnv) (prompt_text : String)
    (outcome : GenOutcome) : (GenResult × PostRequest) × RelayEnv :=
  (generate_ollama_completion env prompt_text outcome, env)

/-- `process_github_event` as a configuration transformer. -/
def process_event_step (env : RelayEnv) (e : GithubEvent)
    (outcome : GenOutcome) : GenResult × RelayEnv :=
  (process_github_event env e outcome, env)

/-! ## Spec-side definition for the prompt-extraction refinement

The specification describes the extractor as "returns the first non-empty
field found" over the fixed priority list; the following definition follows
those words, to be compared with the fall-through chain embedded from the
source. -/

/-- The first candidate in the list that is present and non-empty, per the
spec's words. -/
def firstNonEmptyField : List (Option String) → Option String
  | [] => none
  | none :: rest => firstNonEmptyField rest
  | some s :: rest => if s = "" then firstNonEmptyField rest else some s

/-- The spec's selection over the fixed priority order: comment body,
issue body, pull-request body, issue title. -/
def specSelectedField (e : GithubEvent) : Option String :=
  firstNonEmptyField [e.commentBody, e.issueBody, e.pullRequestBody, e.issueTitle]

/-! ## Concrete values used by witnesses and counterexamples -/

/-- The relay configuration when none of the environment variables is set. -/
def defaultEnv : RelayEnv :=
  { ollama_host := none, ollama_model := none, ollama_timeout := none }

/-- A parsed generation-reply body with none of the optional keys present. -/
def emptyGenBody : GenBody :=
  { responseField := none, modelField := none, total_duration := none
    prompt_eval_count := none, eval_count := none }

/-- A parsed generation-reply body whose only key is `response`. -/
def bodyWithResponse (r : String) : GenBody :=
  { emptyGenBody with responseField := some r }

/-! ## Helper lemmas on the string primitives -/

theorem data_append (s t : String) : (s ++ t).data = s.data ++ t.data := by
  cases s; cases t; rfl

theorem listIsPre_append (l t : List Char) : listIsPre l (l ++ t) = true := by
  induction l with
  | nil => rfl
  | cons a as ih => simpa [listIsPre] using ih

theorem listHasSub_nil_needle (l : List Char) : listHasSub [] l = true := by
  cases l <;> simp [listHasSub, listIsPre]

theorem listHasSub_append_right (n a b : List Char) (h : listHasSub n b = true) :
    listHasSub n (a ++ b) = true := by
  induction a with
  | nil => simpa using h
  | cons c cs ih => simp [listHasSub, ih]

theorem listHasSub_self_append (n t : List Char) : listHasSub n (n ++ t) = true := by
  cases n with
  | nil => exact listHasSub_nil_needle t
  | cons c cs =>
    simp only [listHasSub, Bool.or_eq_true]
    exact Or.inl (listIsPre_append (c :: cs) t)

theorem listIsPre_extend (n t : List Char) :
    ∀ x, listIsPre n x = true → listIsPre n (x ++ t) = true := by
  induction n with
  | nil => intro x _; rfl
  | cons a as ih =>
    intro x h
    cases x with
    | nil => simp [listIsPre] at h
    | cons b bs =>
      simp [listIsPre] at h ⊢
      exact ⟨h.1, ih bs h.2⟩

theorem listHasSub_append_left (n b : List Char) :
    ∀ a, listHasSub n a = true → listHasSub n (a ++ b) = true := by
  intro a
  induction a with
  | nil =>
    intro h
    have hn : n = [] := by
      cases n with
      | nil => rfl
      | cons c cs => simp [listHasSub] at h
    subst hn
    exact listHasSub_nil_needle b
  | cons c cs ih =>
    intro h
    simp [listHasSub] at h ⊢
    rcases h with h1 | h2
    · exact Or.inl (listIsPre_extend n b _ h1)
    · exact Or.inr (ih h2)

theorem strContains_self_append (n b : String) : strContains (n ++ b) n = true := by
  unfold strContains
  rw [data_append]
  exact listHasSub_self_append _ _

theorem strContains_append_right (a x n : String) (h : strContains x n = true) :
    strContains (a ++ x) n = true := by
  unfold strContains at h ⊢
  rw [data_append]
  exact listHasSub_append_right _ _ _ h

theorem strContains_append_left (x b n : String) (h : strContains x n = true) :
    strContains (x ++ b) n = true := by
  unfold strContains at h ⊢
  rw [data_append]
  exact listHasSub_append_left _ _ _ h

theorem strContains_self (n : String) : strContains n n = true := by
  unfold strContains
  have h := listHasSub_self_append n.data []
  rwa [List.append_nil] at h

theorem strContains_httpErrorText (s : Nat) (u : String) :
    strContains (httpErrorText s u) (toString s) = true := by
  unfold httpErrorText
  exact strContains_append_left _ _ _ (strContains_self_append _ _)

/-! ## C1: prompt extraction -/

theorem pyStrip_empty : pyStrip "" = "" := rfl

theorem chain_of_comment (e : GithubEvent) (c : String) (hc : e.commentBody = some c)
    (hne : c ≠ "") : extract_prompt_chain e = some c := by
  simp [extract_prompt_chain, hc, pyTruthy, hne]

theorem specSelected_eq_chain (e : GithubEvent) :
    specSelectedField e =
      if pyTruthy (extract_prompt_chain e) then extract_prompt_chain e else none := by
  obtain ⟨cb, ib, pb, it⟩ := e
  simp only [specSelectedField, extract_prompt_chain]
  cases cb <;> cases ib <;> cases pb <;> cases it <;>
    simp [firstNonEmptyField, pyTruthy] <;>
    split_ifs <;>
    simp_all [firstNonEmptyField, pyTruthy]

/-- **C1**: `process_github_event` tries the payload fields in the fixed
order comment body, issue body, pull-request body, issue title; it selects
the first non-empty one, returns it as the prompt exactly when its trimmed
length is at least 10, and returns the error result when the selected field
trims to fewer than 10 characters or when all four fields are empty or
missing.  In particular a comment body with trimmed length at least 10 is
the prompt returned, regardless of the other fields. -/
theorem c1_prompt_extraction (e : GithubEvent) :
    (process_github_event_prompt e =
      match specSelectedField e with
      | none => .error "No valid prompt found in GitHub event."
      | some p =>
        if (pyStrip p).length < 10 then
          .error "No valid prompt found in GitHub event."
        else .ok p) ∧
    (∀ c : String, e.commentBody = some c → 10 ≤ (pyStrip c).length →
      process_github_event_prompt e = .ok c) := by
  constructor
  · rw [specSelected_eq_chain]
    unfold process_github_event_prompt
    cases h : pyTruthy (extract_prompt_chain e) with
    | false => simp [h]
    | true =>
      cases hc : extract_prompt_chain e with
      | none => rw [hc] at h; simp [pyTruthy] at h
      | some s =>
        rw [hc] at h
        simp [h]
  · intro c hc hlen
    have hne : c ≠ "" := by
      intro heq
      rw [heq] at hlen
      simp [pyStrip_empty] at hlen
    rw [process_github_event_prompt, chain_of_comment e c hc hne]
    have ht : pyTruthy (some c) = true := by simp [pyTruthy, hne]
    simp [ht]
    omega

/-- Witness for C1 at a concrete event: the comment body wins over a
populated issue body and title, and is returned as the prompt. -/
theorem c1_prompt_extraction_witness :
    process_github_event_prompt
      { commentBody := some "hello world, SOVRA"
        issueBody := some "short", pullRequestBody := none
        issueTitle := some "an ignored issue title" } = .ok "hello world, SOVRA" :=
  (c1_prompt_extraction _).2 "hello world, SOVRA" rfl (by decide)

/-! ## C2: HTTP 200 handling -/

/-- **C2, counterexample**: the claim says that in both entry points an
HTTP 200 reply whose body lacks the `response` field yields Success with
the literal `"No response found."`; the service's `/query` handler instead
evaluates `result['response']` and the `KeyError` escapes uncaught. -/
theorem c2_counterexample :
    (handle_query (some "hola SOVRA") (.reply 200 emptyGenBody)).outcome
      = .raised "KeyError: response" := rfl

/-- **C2, amended**: on an HTTP 200 reply the relay's
`generate_ollama_completion` returns Success whose output is the body's
`response` field — or the literal `"No response found."` when that field is
absent — echoing the model name and any timing/token counters present; the
service's `/query` handler instead returns the whitespace-trimmed
`response` field with a fixed sender and timestamp, echoes no model name or
counters, and has no fallback: a body without the `response` field raises
an uncaught `KeyError`. -/
theorem c2_http200 (env : RelayEnv) (p : String) (body : GenBody) :
    ((generate_ollama_completion env p (.reply 200 body)).1 =
      .success (body.responseField.getD "No response found.")
        (body.modelField.getD (MODEL_NAME env))
        body.total_duration body.prompt_eval_count body.eval_count) ∧
    (∀ q r, q ≠ "" → body.responseField = some r →
      (handle_query (some q) (.reply 200 body)).outcome =
        .ok ({ response := pyStrip r, sender := "IA (Sovra)"
               timestamp := some "AGI_TIME" }, 200)) ∧
    (∀ q, q ≠ "" → body.responseField = none →
      (handle_query (some q) (.reply 200 body)).outcome =
        .raised "KeyError: response") := by
  refine ⟨rfl, ?_, ?_⟩
  · intro q r hq hr
    simp [handle_query, hq, hr]
  · intro q hq hr
    simp [handle_query, hq, hr]

/-- Witness for C2 at concrete inputs: the relay's fallback fires on a
body without `response`, and the service trims the field it returns. -/
theorem c2_http200_witness :
    ((generate_ollama_completion defaultEnv "hola" (.reply 200 emptyGenBody)).1 =
      .success "No response found." "phi3:mini" none none none) ∧
    (handle_query (some "hola") (.reply 200 (bodyWithResponse "  X  "))).outcome =
      .ok ({ response := pyStrip "  X  ", sender := "IA (Sovra)"
             timestamp := some "AGI_TIME" }, 200) :=
  ⟨(c2_http200 defaultEnv "hola" emptyGenBody).1,
   (c2_http200 defaultEnv "hola" (bodyWithResponse "  X  ")).2.1
     "hola" "  X  " (by decide) rfl⟩

/-! ## C3: failure handling -/

/-- **C3, counterexample**: the claim says every non-200 backend reply
yields Failure; the relay's `raise_for_status()` only raises for 4xx/5xx,
so an HTTP 201 reply with a well-formed body yields Success. -/
theorem c3_counterexample :
    (generate_ollama_completion defaultEnv "hola SOVRA"
        (.reply 201 (bodyWithResponse "X"))).1
      = .success "X" "phi3:mini" none none none := rfl

/-- **C3, amended**: for a backend reply with an error status (4xx/5xx) or
a transport failure, the relay's `generate_ollama_completion` returns a
Failure whose message embeds the underlying cause (the status code,
through the `requests.HTTPError` text, or the exception text), and the
service's `/query` handler returns an error envelope (HTTP 500) without
any exception escaping — the service for every non-200 status with a
message embedding the status code, and for a transport failure with a
fixed connection-error message; the relay however treats a non-200
non-error status (2xx/3xx) like a success reply. -/
theorem c3_failure_handling (env : RelayEnv) (p : String) (status : Nat)
    (body : GenBody) (exn : String) (q : String) :
    (400 ≤ status → status < 600 →
      (generate_ollama_completion env p (.reply status body)).1 =
        .error ("Ollama connection failed: "
          ++ httpErrorText status (relayGenRequest env p).url) ∧
      strContains ("Ollama connection failed: "
          ++ httpErrorText status (relayGenRequest env p).url)
        (toString status) = true) ∧
    ((generate_ollama_completion env p (.transportError exn)).1 =
      .error ("Ollama connection failed: " ++ exn) ∧
      strContains ("Ollama connection failed: " ++ exn) exn = true) ∧
    (q ≠ "" → status ≠ 200 →
      (handle_query (some q) (.reply status body)).outcome =
        .ok ({ response := "ERROR LLM: Fallo al consultar Ollama (Status: "
                 ++ toString status ++ ")."
               sender := "Sistema", timestamp := none }, 500) ∧
      strContains ("ERROR LLM: Fallo al consultar Ollama (Status: "
          ++ toString status ++ ").") (toString status) = true) ∧
    (q ≠ "" →
      (handle_query (some q) (.transportError exn)).outcome =
        .ok ({ response := "ERROR DE CONEXIÓN CRÍTICO: No se puede alcanzar el servicio de Ollama en 11434. Asegure su ejecución."
               sender := "Sistema", timestamp := none }, 500)) := by
  refine ⟨?_, ⟨rfl, ?_⟩, ?_, ?_⟩
  · intro h4 h6
    constructor
    · simp [generate_ollama_completion, raisesForStatus, h4, h6]
    · exact strContains_append_right _ _ _ (strContains_httpErrorText status _)
  · exact strContains_append_right _ _ _ (strContains_self exn)
  · intro hq hs
    constructor
    · simp [handle_query, hq, hs]
    · exact strContains_append_left _ _ _
        (strContains_append_right _ _ _ (strContains_self _))
  · intro hq
    simp [handle_query, hq]

/-- Witness for C3 at concrete inputs: a 500 reply and a refused
connection, against both entry points. -/
theorem c3_failure_handling_witness :
    ((generate_ollama_completion defaultEnv "hola" (.reply 500 emptyGenBody)).1 =
      .error ("Ollama connection failed: "
        ++ httpErrorText 500 (relayGenRequest defaultEnv "hola").url)) ∧
    (handle_query (some "hola") (.transportError "Connection refused")).outcome =
      .ok ({ response := "ERROR DE CONEXIÓN CRÍTICO: No se puede alcanzar el servicio de Ollama en 11434. Asegure su ejecución."
             sender := "Sistema", timestamp := none }, 500) :=
  ⟨((c3_failure_handling defaultEnv "hola" 500 emptyGenBody
      "Connection refused" "hola").1 (by decide) (by decide)).1,
   (c3_failure_handling defaultEnv "hola" 500 emptyGenBody
      "Connection refused" "hola").2.2.2 (by decide)⟩

/-! ## C4: /query validation and error codes -/

theorem app_error_messages_distinct (s : Nat) :
    ("ERROR LLM: Fallo al consultar Ollama (Status: " ++ toString s ++ ").")
      ≠ "ERROR DE CONEXIÓN CRÍTICO: No se puede alcanzar el servicio de Ollama en 11434. Asegure su ejecución." := by
  intro h
  have hd := congrArg (fun t : String => t.data.take 7) h
  simp only [data_append] at hd
  rw [List.append_assoc, List.take_append_eq_append_take] at hd
  have hlen : ("ERROR LLM: Fallo al consultar Ollama (Status: " : String).data.length = 46 := by
    decide
  rw [hlen] at hd
  norm_num at hd
  exact absurd hd (by decide)

/-- **C4**: a `POST /query` whose body has an empty or absent prompt gets
the 400 error envelope and no backend call is issued; a non-200 backend
reply gets a 500 envelope whose message embeds the status code; a
transport failure gets a 500 envelope with the fixed connection-error
message; and the two 500 messages are distinguishable (never equal). -/
theorem c4_query_error_paths (p : Option String) (status : Nat)
    (body : GenBody) (exn : String) :
    (p.getD "" = "" → ∀ backend,
      handle_query p backend =
        { outcome := .ok ({ response := "Error: El prompt está vacío."
                            sender := "Sistema", timestamp := none }, 400)
          requests := [] }) ∧
    (p.getD "" ≠ "" → status ≠ 200 →
      (handle_query p (.reply status body)).outcome =
        .ok ({ response := "ERROR LLM: Fallo al consultar Ollama (Status: "
                 ++ toString status ++ ")."
               sender := "Sistema", timestamp := none }, 500)) ∧
    (p.getD "" ≠ "" →
      (handle_query p (.transportError exn)).outcome =
        .ok ({ response := "ERROR DE CONEXIÓN CRÍTICO: No se puede alcanzar el servicio de Ollama en 11434. Asegure su ejecución."
               sender := "Sistema", timestamp := none }, 500)) ∧
    (("ERROR LLM: Fallo al consultar Ollama (Status: " ++ toString status ++ ").")
      ≠ "ERROR DE CONEXIÓN CRÍTICO: No se puede alcanzar el servicio de Ollama en 11434. Asegure su ejecución.") := by
  refine ⟨?_, ?_, ?_, app_error_messages_distinct status⟩
  · intro hp backend
    simp [handle_query, hp]
  · intro hp hs
    simp [handle_query, hp, hs]
  · intro hp
    simp [handle_query, hp]

/-- Witness for C4 at concrete inputs: the empty-prompt 400 path with no
backend request, and the 503-status 500 path. -/
theorem c4_query_error_paths_witness :
    (handle_query (some "") (.transportError "boom") =
      { outcome := .ok ({ response := "Error: El prompt está vacío."
                          sender := "Sistema", timestamp := none }, 400)
        requests := [] }) ∧
    (handle_query (some "hola") (.reply 503 emptyGenBody)).outcome =
      .ok ({ response := "ERROR LLM: Fallo al consultar Ollama (Status: "
               ++ toString 503 ++ ")."
             sender := "Sistema", timestamp := none }, 500) :=
  ⟨(c4_query_error_paths (some "") 503 emptyGenBody "boom").1 rfl
      (.transportError "boom"),
   (c4_query_error_paths (some "hola") 503 emptyGenBody "boom").2.1
      (by decide) (by decide)⟩

/-! ## C5: connectivity check -/

theorem checkFrom_requests (backend : Nat → ProbeOutcome) (env : RelayEnv)
    (d : Nat) :
    ∀ remaining attempt, ∀ r ∈ (checkFrom backend env d attempt remaining).requests,
      r = tagsProbeRequest env := by
  intro remaining
  induction remaining with
  | zero =>
    intro attempt r hr
    simp [checkFrom] at hr
  | succ m ih =>
    intro attempt r hr
    by_cases h : probeSuccess (backend attempt) = true
    · simp [checkFrom, h] at hr
      exact hr
    · simp only [checkFrom, h, Bool.false_eq_true, if_false, List.mem_cons] at hr
      rcases hr with hr | hr
      · exact hr
      · exact ih _ r hr

theorem checkFrom_ok_iff (backend : Nat → ProbeOutcome) (env : RelayEnv)
    (d : Nat) :
    ∀ remaining attempt, (checkFrom backend env d attempt remaining).ok = true ↔
      ∃ i, attempt ≤ i ∧ i < attempt + remaining ∧ probeSuccess (backend i) = true := by
  intro remaining
  induction remaining with
  | zero =>
    intro attempt
    simp only [checkFrom]
    constructor
    · intro h; cases h
    · rintro ⟨i, h1, h2, -⟩; omega
  | succ m ih =>
    intro attempt
    by_cases h : probeSuccess (backend attempt) = true
    · simp only [checkFrom, h, if_true]
      constructor
      · intro _; exact ⟨attempt, le_refl _, by omega, h⟩
      · intro _; trivial
    · simp only [checkFrom, h, Bool.false_eq_true, if_false]
      rw [ih (attempt + 1)]
      constructor
      · rintro ⟨i, h1, h2, hs⟩
        exact ⟨i, by omega, by omega, hs⟩
      · rintro ⟨i, h1, h2, hs⟩
        rcases Nat.eq_or_lt_of_le h1 with heq | hlt
        · subst heq; exact absurd hs (by simp [h])
        · exact ⟨i, by omega, by omega, hs⟩

theorem checkFrom_first_success (backend : Nat → ProbeOutcome) (env : RelayEnv)
    (d : Nat) :
    ∀ remaining attempt i, attempt ≤ i → i < attempt + remaining →
      probeSuccess (backend i) = true →
      (∀ j, attempt ≤ j → j < i → probeSuccess (backend j) = false) →
      checkFrom backend env d attempt remaining =
        { ok := true, attempts := i + 1
          requests := List.replicate (i + 1 - attempt) (tagsProbeRequest env)
          sleepTime := (i - attempt) * d } := by
  intro remaining
  induction remaining with
  | zero =>
    intro attempt i h1 h2
    omega
  | succ m ih =>
    intro attempt i h1 h2 hs hprev
    by_cases h : attempt = i
    · subst h
      have hrep : attempt + 1 - attempt = 1 := by omega
      simp [checkFrom, hs, hrep, List.replicate]
    · have hlt : attempt < i := by omega
      have hfail : probeSuccess (backend attempt) = false :=
        hprev attempt le_rfl hlt
      rw [checkFrom]
      simp only [hfail, Bool.false_eq_true, if_false]
      rw [ih (attempt + 1) i (by omega) (by omega) hs
        (fun j hj1 hj2 => hprev j (by omega) hj2)]
      have hm : 0 < m := by omega
      have hr1 : i + 1 - attempt = (i + 1 - (attempt + 1)) + 1 := by omega
      have hr2 : i - attempt = (i - (attempt + 1)) + 1 := by omega
      simp only [hm, if_pos, hr1, hr2, List.replicate_succ, Nat.succ_mul,
        CheckResult.mk.injEq]
      exact ⟨trivial, trivial, trivial, Nat.add_comm _ _⟩

theorem checkFrom_all_fail (backend : Nat → ProbeOutcome) (env : RelayEnv)
    (d : Nat) :
    ∀ remaining attempt,
      (∀ j, attempt ≤ j → j < attempt + remaining → probeSuccess (backend j) = false) →
      checkFrom backend env d attempt remaining =
        { ok := false, attempts := attempt + remaining
          requests := List.replicate remaining (tagsProbeRequest env)
          sleepTime := (remaining - 1) * d } := by
  intro remaining
  induction remaining with
  | zero =>
    intro attempt _
    simp [checkFrom]
  | succ m ih =>
    intro attempt hall
    have hfail : probeSuccess (backend attempt) = false :=
      hall attempt le_rfl (by omega)
    rw [checkFrom]
    simp only [hfail, Bool.false_eq_true, if_false]
    rw [ih (attempt + 1) (fun j hj1 hj2 => hall j (by omega) (by omega))]
    simp only [List.replicate_succ, CheckResult.mk.injEq]
    refine ⟨trivial, by omega, trivial, ?_⟩
    cases m with
    | zero => simp
    | succ k =>
      rw [if_pos (Nat.succ_pos k), Nat.succ_sub_one, Nat.succ_sub_one,
        Nat.succ_mul]
      exact Nat.add_comm _ _

/-- **C5**: `check_ollama_connection` issues a GET to the list-models
endpoint with a 10-unit timeout on every attempt, counts only HTTP 200 as
reachable (any other status, connection error or timeout fails the
attempt), retries up to `max_retries` times (default 5) with a fixed
`retry_delay` (default 5) slept between attempts, returns true as soon as
an attempt succeeds — after exactly `i + 1` attempts when the first
success is attempt `i` — and false after exhausting all attempts. -/
theorem c5_connectivity_check (backend : Nat → ProbeOutcome) (env : RelayEnv)
    (m d : Nat) :
    (∀ s, probeSuccess (.reply s) = (s == 200)) ∧
    probeSuccess .connectionError = false ∧
    probeSuccess .timeoutError = false ∧
    tagsProbeRequest env = { url := OLLAMA_API_URL env ++ "/api/tags", timeout := 10 } ∧
    (∀ r ∈ (check_ollama_connection backend env m d).requests,
      r = tagsProbeRequest env) ∧
    ((check_ollama_connection backend env m d).ok = true ↔
      ∃ i, i < m ∧ probeSuccess (backend i) = true) ∧
    (∀ i, i < m → probeSuccess (backend i) = true →
      (∀ j, j < i → probeSuccess (backend j) = false) →
      check_ollama_connection backend env m d =
        { ok := true, attempts := i + 1
          requests := List.replicate (i + 1) (tagsProbeRequest env)
          sleepTime := i * d }) ∧
    ((∀ i, i < m → probeSuccess (backend i) = false) →
      check_ollama_connection backend env m d =
        { ok := false, attempts := m
          requests := List.replicate m (tagsProbeRequest env)
          sleepTime := (m - 1) * d }) ∧
    DEFAULT_MAX_RETRIES = 5 ∧ DEFAULT_RETRY_DELAY = 5 := by
  refine ⟨fun s => rfl, rfl, rfl, rfl, ?_, ?_, ?_, ?_, rfl, rfl⟩
  · exact checkFrom_requests backend env d m 0
  · have h := checkFrom_ok_iff backend env d m 0
    simpa using h
  · intro i hi hs hprev
    have h := checkFrom_first_success backend env d m 0 i (by omega) (by omega)
      hs (fun j _ hj2 => hprev j hj2)
    simpa using h
  · intro hall
    have h := checkFrom_all_fail backend env d m 0 (fun j _ hj2 => hall j (by omega))
    simpa using h

/-- Witness for C5: against a backend that fails twice then succeeds, with
`max_retries = 5` and `retry_delay = 5`, the check returns true after
exactly 3 attempts (and slept twice, 10 units in total). -/
theorem c5_connectivity_check_witness :
    check_ollama_connection
        (fun i => if i < 2 then .connectionError else .reply 200)
        defaultEnv 5 5 =
      { ok := true, attempts := 3
        requests := List.replicate 3 (tagsProbeRequest defaultEnv)
        sleepTime := 10 } :=
  (c5_connectivity_check (fun i => if i < 2 then .connectionError else .reply 200)
      defaultEnv 5 5).2.2.2.2.2.2.1 2 (by decide) (by decide)
    (by decide)

/-! ## C6: model availability -/

/-- **C6**: `ensure_model_available` lists the backend's models and matches
the configured model name as a substring of each listed name (not exact
equality); if any listed name contains it, it returns true without
triggering a pull; otherwise it triggers one POST against the pull endpoint
with a 300-unit timeout and returns whether that pull succeeded (HTTP 200);
any exception raised during the listing yields false without any pull. -/
theorem c6_ensure_model (env : RelayEnv) (pull : PullOutcome) :
    (∀ exn, ensure_model_available env (.raised exn) pull =
      { ok := false, pulls := [] }) ∧
    (∀ models, models.any (fun m => strContains m (MODEL_NAME env)) = true →
      ensure_model_available env (.reply 200 models) pull =
        { ok := true, pulls := [] }) ∧
    (∀ models, models.any (fun m => strContains m (MODEL_NAME env)) = false →
      ensure_model_available env (.reply 200 models) pull =
        { ok := pull_model pull, pulls := [pullRequest env] }) ∧
    (pullRequest env).timeout = 300 ∧
    (pullRequest env).url = OLLAMA_API_URL env ++ "/api/pull" ∧
    (∀ s, pull_model (.reply s) = (s == 200)) ∧
    (∀ exn, pull_model (.raised exn) = false) := by
  refine ⟨fun exn => rfl, ?_, ?_, rfl, rfl, fun s => rfl, fun exn => rfl⟩
  · intro models h
    simp [ensure_model_available, h]
  · intro models h
    simp [ensure_model_available, h]

/-- Witness for C6: a listing containing only `"phi3:mini-instruct"`
satisfies the check for the configured `"phi3:mini"` by substring match,
and no pull is triggered. -/
theorem c6_ensure_model_witness :
    ensure_model_available defaultEnv (.reply 200 ["phi3:mini-instruct"])
        (.raised "unused") =
      { ok := true, pulls := [] } :=
  (c6_ensure_model defaultEnv (.raised "unused")).2.1
    ["phi3:mini-instruct"] (by decide)

/-! ## C7: response envelope shape -/

/-- **C7, counterexample**: the claim says every `/query` response carries
the three fields `response`, `sender`, `timestamp`; the 400 envelope for an
empty prompt carries no `timestamp` key (modelled as `none`). -/
theorem c7_counterexample :
    (handle_query (some "") (.transportError "refused")).outcome =
      .ok ({ response := "Error: El prompt está vacío."
             sender := "Sistema", timestamp := none }, 400) := rfl

/-- **C7, amended**: every returned `/query` response is an envelope with
`response` and `sender`; the success envelope additionally carries the
`timestamp` field, while the 400/500 error envelopes omit it (and label the
sender `"Sistema"`). -/
theorem c7_envelope_shape (p : Option String) (backend : GenOutcome)
    (e : Envelope) (code : Nat) :
    (handle_query p backend).outcome = .ok (e, code) →
      (code = 200 ∧ e.sender = "IA (Sovra)" ∧ e.timestamp = some "AGI_TIME") ∨
      (code ≠ 200 ∧ e.sender = "Sistema" ∧ e.timestamp = none) := by
  intro h
  by_cases hp : p.getD "" = ""
  · simp [handle_query, hp] at h
    obtain ⟨h1, h2⟩ := h
    subst h1
    subst h2
    right
    exact ⟨by omega, rfl, rfl⟩
  · cases backend with
    | transportError exn =>
      simp [handle_query, hp] at h
      obtain ⟨h1, h2⟩ := h
      subst h1
      subst h2
      right
      exact ⟨by omega, rfl, rfl⟩
    | reply status body =>
      by_cases hs : status = 200
      · subst hs
        cases hb : body.responseField with
        | none => simp [handle_query, hp, hb] at h
        | some r =>
          simp [handle_query, hp, hb] at h
          obtain ⟨h1, h2⟩ := h
          subst h1
          subst h2
          left
          exact ⟨by omega, rfl, rfl⟩
      · simp [handle_query, hp, hs] at h
        obtain ⟨h1, h2⟩ := h
        subst h1
        subst h2
        right
        exact ⟨by omega, rfl, rfl⟩

/-- Witness for C7 at the concrete empty-prompt request: the returned 400
envelope is an error envelope (sender `"Sistema"`, no timestamp). -/
theorem c7_envelope_shape_witness :
    ((400 : Nat) = 200 ∧
      ({ response := "Error: El prompt está vacío."
         sender := "Sistema", timestamp := none } : Envelope).sender = "IA (Sovra)" ∧
      ({ response := "Error: El prompt está vacío."
         sender := "Sistema", timestamp := none } : Envelope).timestamp = some "AGI_TIME") ∨
    ((400 : Nat) ≠ 200 ∧
      ({ response := "Error: El prompt está vacío."
         sender := "Sistema", timestamp := none } : Envelope).sender = "Sistema" ∧
      ({ response := "Error: El prompt está vacío."
         sender := "Sistema", timestamp := none } : Envelope).timestamp = none) :=
  c7_envelope_shape (some "") (.transportError "refused") _ 400 rfl

/-! ## C8: generation request timeouts -/

/-- **C8**: each generation call issues a single POST whose timeout is the
caller-configured duration — `OLLAMA_TIMEOUT` (180 when the environment
variable is unset) in the relay and 120 in the service's `/query` handler,
with 5 for the service's liveness probe.  This theorem is about the
modelled intent: in the source the relay's call site spells the argument
`timeout:OLLAMA_TIMEOUT`, which is a Python syntax error, so the script as
written fails to load at all (see the spec's open question; the embedding
follows its directive and treats it as `timeout=OLLAMA_TIMEOUT`). -/
theorem c8_generation_timeouts (env : RelayEnv) (p q : String)
    (outcome : GenOutcome) (pf : Option String) :
    (relayGenRequest env p).timeout = OLLAMA_TIMEOUT env ∧
    OLLAMA_TIMEOUT defaultEnv = 180 ∧
    (generate_ollama_completion env p outcome).2 = relayGenRequest env p ∧
    (appGenRequest q).timeout = 120 ∧
    (handle_query pf outcome).requests.all (fun r => r.timeout == 120) = true ∧
    statusProbeRequest.timeout = 5 := by
  refine ⟨rfl, rfl, ?_, rfl, ?_, rfl⟩
  · cases outcome with
    | reply s b =>
      simp only [generate_ollama_completion]
      by_cases hs : raisesForStatus s = true <;> simp [hs]
    | transportError e => rfl
  · unfold handle_query
    by_cases hp : pf.getD "" = "" <;> simp only [hp, if_true, if_false]
    · rfl
    · cases outcome with
      | reply s b =>
        by_cases hs : (s == 200) = true <;> simp only [hs, if_true, if_false]
        · cases b.responseField <;> simp [appGenRequest]
        · simp [appGenRequest]
      | transportError e => simp [appGenRequest]

/-! ## C9: no shared-state mutation -/

/-- **C9**: the process-wide configuration and the service's state record
are set once at startup and left unchanged by every operation: the
`/status` and `/query` handlers and each relay function, viewed as state
transformers, return the configuration/state they were given (the source
contains no assignment to any of these globals or to `agi_state`). -/
theorem c9_no_shared_state_mutation (st : ServiceState) (pf : Option String)
    (b probe : GenOutcome) (env : RelayEnv) (backend : Nat → ProbeOutcome)
    (m d : Nat) (tags : TagsOutcome) (pull : PullOutcome) (p : String)
    (e : GithubEvent) (o : GenOutcome) :
    (get_status_step st probe).2 = st ∧
    (handle_query_step st pf b).2 = st ∧
    (check_step env backend m d).2 = env ∧
    (ensure_step env tags pull).2 = env ∧
    (generate_step env p o).2 = env ∧
    (process_event_step env e o).2 = env ∧
    initial_service_state.agi_state = initial_agi_state :=
  ⟨rfl, rfl, rfl, rfl, rfl, rfl, rfl⟩

/-! ## C10: /status endpoint -/

/-- **C10**: `get_status` always returns HTTP 200, reports the backend as
connected whenever the liveness probe completes without raising — for any
reply status, including non-200 — and reports it as disconnected exactly
when the probe raises a transport exception. -/
theorem c10_status_probe (st : AgiState) (probe : GenOutcome) :
    (get_status st probe).httpStatus = 200 ∧
    (∀ s b, (get_status st (.reply s b)).llm_status = "OLLAMA CONECTADO") ∧
    (∀ exn, (get_status st (.transportError exn)).llm_status =
      "OLLAMA DESCONECTADO (Revisar 11434)") ∧
    ((get_status st probe).llm_status = "OLLAMA DESCONECTADO (Revisar 11434)" ↔
      ∃ exn, probe = .transportError exn) := by
  refine ⟨rfl, fun s b => rfl, fun exn => rfl, ?_⟩
  cases probe with
  | reply s b =>
    constructor
    · intro h
      have hc : (get_status st (.reply s b)).llm_status = "OLLAMA CONECTADO" := rfl
      rw [hc] at h
      exact absurd h (by decide)
    · rintro ⟨exn, h⟩
      cases h
  | transportError exn =>
    constructor
    · intro _
      exact ⟨exn, rfl⟩
    · intro _
      rfl

end SovraRelay
